import Mathlib

/-!
# Kokkos `parallel_reduce` dispatch layer

Shallow embedding of `core/src/Kokkos_Parallel_Reduce.hpp`:

* the built-in reducers `Max` and `Add` (`join`, `init`);
* the enabling conditions of the four `ParallelReduceReturnValue`
  specializations and their `return_value` functions;
* `ParallelReducePolicyType::policy`, `ParallelReduceFunctorType::functor`;
* `ParallelReduceAdaptor::execute`, as a function that returns the sequence of
  effects it performed together with its outcome (normal return or the error
  that escaped);
* the four public `parallel_reduce` overloads.

A reference parameter `T& x` written by a function is modelled by passing the
value of the cell in and returning the value the cell holds afterwards.
-/

namespace Kokkos

/-! ## Reducers (source lines 47-95) -/

/-- Address of a memory cell (what `&x` evaluates to). -/
abbrev Addr := Nat

/-- Data members of `struct Max<Scalar>`: `value_type min_value;` and
`value_type& result;` (the reference is kept as the address it is bound to). -/
structure Max (Scalar : Type) where
  min_value : Scalar
  result : Addr
deriving DecidableEq, Repr

/-- The member `Max::join(value_type& dest, const value_type& src)`, body
`dest = dest<src?dest:src;`.  Input: the values of the cells `dest` and `src`;
output: the values of the two cells after the call, `dest` first. -/
def Max.join {Scalar : Type} [LinearOrder Scalar] (dest src : Scalar) : Scalar × Scalar :=
  (if dest < src then dest else src, src)

/-- The member `Max::join(volatile value_type& dest, const volatile value_type& src)`,
body `dest = dest<src?dest:src;`. -/
def Max.join_volatile {Scalar : Type} [LinearOrder Scalar] (dest src : Scalar) :
    Scalar × Scalar :=
  (if dest < src then dest else src, src)

/-- The member `Max::init(value_type& val)`, body `val = min_value;`.  Input: the
reducer and the prior value of the cell; output: the value of the cell afterwards. -/
def Max.init {Scalar : Type} (self : Max Scalar) (_val : Scalar) : Scalar :=
  self.min_value

/-- The member `Add::join(value_type& dest, const value_type& src)`, body
`dest += src;`.  Output: the values of `dest` and `src` after the call. -/
def Add.join {Scalar : Type} [Add Scalar] (dest src : Scalar) : Scalar × Scalar :=
  (dest + src, src)

/-- The member `Add::join(volatile value_type& dest, const volatile value_type& src)`,
body `dest += src;`. -/
def Add.join_volatile {Scalar : Type} [Add Scalar] (dest src : Scalar) : Scalar × Scalar :=
  (dest + src, src)

/-- The member `Add::init(value_type& val)`, body `val = value_type();`: the
value-initialised scalar, which is zero for an arithmetic type. -/
def Add.init {Scalar : Type} [Zero Scalar] (_val : Scalar) : Scalar :=
  0

/-! ## Destination classification (source lines 106-170) -/

/-- The values, for one `ReturnType`, of the four traits the specializations of
`ParallelReduceReturnValue` are gated on. -/
structure ReturnTraits where
  is_view : Bool
  is_array : Bool
  is_pointer : Bool
  is_reducer_type : Bool
deriving DecidableEq, Repr

/-- Condition of the first specialization (line 110):
`enable_if<Kokkos::is_view<ReturnType>::value>`. -/
def ReturnTraits.enable_view (t : ReturnTraits) : Bool :=
  t.is_view

/-- Condition of the second specialization (lines 124-128):
`!is_view && (!is_array && !is_pointer) && !is_reducer_type`. -/
def ReturnTraits.enable_scalar (t : ReturnTraits) : Bool :=
  !t.is_view && (!t.is_array && !t.is_pointer) && !t.is_reducer_type

/-- Condition of the third specialization (lines 141-143):
`(is_array || is_pointer)`. -/
def ReturnTraits.enable_array_or_pointer (t : ReturnTraits) : Bool :=
  t.is_array || t.is_pointer

/-- Condition of the fourth specialization (lines 157-159): `is_reducer_type`. -/
def ReturnTraits.enable_reducer (t : ReturnTraits) : Bool :=
  t.is_reducer_type

/-- The four enabling conditions, in source order. -/
def ReturnTraits.enabled (t : ReturnTraits) : List Bool :=
  [t.enable_view, t.enable_scalar, t.enable_array_or_pointer, t.enable_reducer]

/-- Number of specializations of `ParallelReduceReturnValue` whose enabling
condition is true for the given trait values. -/
def ReturnTraits.matches (t : ReturnTraits) : Nat :=
  t.enabled.count true

/-- Modelled from the spec: `Kokkos::View<..., HostSpace, MemoryUnmanaged>` is
declared outside this file.  An unmanaged view handle is a non-owning handle over
externally owned memory: the address it wraps and its element count. -/
structure View where
  data : Addr
  count : Nat
deriving DecidableEq, Repr

/-- What `parallel_reduce` reads of the caller's functor: an identifier for the
functor object and its member `value_count` (read by the array/pointer
specialization, line 152). -/
structure FunctorType where
  id : Nat
  value_count : Nat
deriving DecidableEq, Repr

/-- The caller's destination argument `ReturnType& return_val`, by shape:
an existing view; a plain scalar at `addr`; an array `T[extent]` at `addr`;
a pointer to a buffer of `extent` elements at `addr`; a reducer object whose
member `result` is bound to the cell at `result`. -/
inductive ReturnDest where
  | view (v : View)
  | scalar (addr : Addr)
  | array (addr : Addr) (extent : Nat)
  | pointer (addr : Addr) (extent : Nat)
  | reducer (result : Addr)
deriving DecidableEq, Repr

/-- Trait values of the C++ type of each destination shape. -/
def ReturnDest.traits : ReturnDest → ReturnTraits
  | .view _ => ⟨true, false, false, false⟩
  | .scalar _ => ⟨false, false, false, false⟩
  | .array _ _ => ⟨false, true, false, false⟩
  | .pointer _ _ => ⟨false, false, true, false⟩
  | .reducer _ => ⟨false, false, false, true⟩

/-- The static member `ParallelReduceReturnValue<void,ReturnType,FunctorType>::return_value`
of the specialization selected for the destination's type:
* view (line 118): `return return_val;`
* scalar (line 135): `return return_type(&return_val);`
* array or pointer (line 150): `return return_type(return_val,functor.value_count);`
* reducer (line 166): `return return_type(&return_val.result);` -/
def ParallelReduceReturnValue.return_value (return_val : ReturnDest) (functor : FunctorType) :
    View :=
  match return_val with
  | .view v => v
  | .scalar addr => View.mk addr 1
  | .array addr _ => View.mk addr functor.value_count
  | .pointer addr _ => View.mk addr functor.value_count
  | .reducer result => View.mk result 1

/-! ## Policy normalisation (source lines 173-209) -/

/-- The class `Kokkos::RangePolicy<execution_space>` as this file uses it: built by
`policy_type(0,policy)` from a begin and an end index; the execution space, a
template argument in the source, is kept as a field. -/
structure RangePolicy (Space : Type) where
  execution_space : Space
  m_begin : Nat
  m_end : Nat
deriving DecidableEq, Repr

/-- `ParallelReducePolicyType<..is_execution_policy..>::policy` (line 181):
`return policy_;`. -/
def ParallelReducePolicyType.policy_execution_policy {PolicyType : Type} (policy_ : PolicyType) :
    PolicyType :=
  policy_

/-- `ParallelReducePolicyType<..is_integral..>::policy` (line 194):
`return policy_type(0,policy_);` with `policy_type = RangePolicy<execution_space>` and
`execution_space = FunctorPolicyExecutionSpace<FunctorType,void>::execution_space`;
that trait is declared outside this file and is the parameter `functorSpace`. -/
def ParallelReducePolicyType.policy_integral {Space : Type} (functorSpace : FunctorType → Space)
    (functor : FunctorType) (policy_ : Nat) : RangePolicy Space :=
  RangePolicy.mk (functorSpace functor) 0 policy_

/-- `ParallelReduceFunctorType::functor` (line 205): `return functor;`. -/
def ParallelReduceFunctorType.functor (functor : FunctorType) : FunctorType :=
  functor

/-! ## The dispatcher (source lines 211-247) -/

/-- The instrumentation interface `Kokkos::Profiling`, declared outside this file:
the compile-time switch `KOKKOS_ENABLE_PROFILING`, the answer of
`profileLibraryLoaded()` (the same at both queries of one dispatch), and
`beginParallelReduce(label, devID, &kpID)` as the function from the label, the device
id and the prior content of `kpID` to the content of `kpID` after the call. -/
structure Profiling where
  KOKKOS_ENABLE_PROFILING : Bool
  profileLibraryLoaded : Bool
  beginParallelReduce : String → Nat → Nat → Nat

/-- The guard of both profiling blocks: the blocks are compiled in and a
listener is registered. -/
def Profiling.listening (prof : Profiling) : Bool :=
  prof.KOKKOS_ENABLE_PROFILING && prof.profileLibraryLoaded

/-- The backend class `Impl::ParallelReduce<FunctorType,PolicyType>`, declared outside
this file: its constructor and its member `execute()`, each of which either
returns or raises an error of type `ε`. -/
structure Backend (PolicyType Closure ε : Type) where
  construct : FunctorType → PolicyType → View → Except ε Closure
  execute : Closure → Except ε Unit

/-- The calls `ParallelReduceAdaptor::execute` makes to its collaborators. -/
inductive Effect (PolicyType : Type) where
  | beginParallelReduce (label : String) (devID : Nat) (kpID : Nat)
  | shared_allocation_tracking_claim_and_disable
  | construct_closure (functor : FunctorType) (policy : PolicyType) (dest : View)
  | shared_allocation_tracking_release_and_enable
  | closure_execute
  | endParallelReduce (kpID : Nat)
deriving DecidableEq, Repr

/-- What one dispatch did: the calls made, in order, and how it ended
(`.ok ()` for a normal return, `.error e` when the error `e` escaped). -/
structure Outcome (PolicyType ε : Type) where
  trace : List (Effect PolicyType)
  result : Except ε Unit

/-- The static member `ParallelReduceAdaptor::execute` (lines 219-244).  An error raised by
the closure's constructor or by `closure.execute()` leaves the function at
that statement: the statements after it are not run. -/
def ParallelReduceAdaptor.execute {PolicyType Closure ε : Type} (prof : Profiling)
    (be : Backend PolicyType Closure ε) (label : String) (policy : PolicyType)
    (functor : FunctorType) (return_value : ReturnDest) : Outcome PolicyType ε :=
  -- uint64_t kpID = 0;
  let kpID0 : Nat := 0
  -- if(profileLibraryLoaded()) beginParallelReduce(std::string(label), 0, &kpID);
  let kpID : Nat := if prof.listening then prof.beginParallelReduce label 0 kpID0 else kpID0
  let t1 : List (Effect PolicyType) :=
    if prof.listening then [Effect.beginParallelReduce label 0 kpID] else []
  -- shared_allocation_tracking_claim_and_disable();
  let t2 := t1 ++ [Effect.shared_allocation_tracking_claim_and_disable]
  -- closure(functor_adaptor::functor(functor), policy,
  --         return_value_adapter::return_value(return_value,functor));
  let a1 := ParallelReduceFunctorType.functor functor
  let a3 := ParallelReduceReturnValue.return_value return_value functor
  let t3 := t2 ++ [Effect.construct_closure a1 policy a3]
  match be.construct a1 policy a3 with
  | .error e => { trace := t3, result := .error e }
  | .ok closure =>
    -- shared_allocation_tracking_release_and_enable();
    let t4 := t3 ++ [Effect.shared_allocation_tracking_release_and_enable]
    -- closure.execute();
    let t5 := t4 ++ [Effect.closure_execute]
    match be.execute closure with
    | .error e => { trace := t5, result := .error e }
    | .ok _ =>
      -- if(profileLibraryLoaded()) endParallelReduce(kpID);
      let t6 := if prof.listening then t5 ++ [Effect.endParallelReduce kpID] else t5
      { trace := t6, result := .ok () }

/-! ## The public overloads (source lines 248-288) -/

/-- Overload `parallel_reduce(label, policy, functor, return_value)` (line 250). -/
def parallel_reduce_label_policy {PolicyType Closure ε : Type} (prof : Profiling)
    (be : Backend PolicyType Closure ε) (label : String) (policy : PolicyType)
    (functor : FunctorType) (return_value : ReturnDest) : Outcome PolicyType ε :=
  ParallelReduceAdaptor.execute prof be label policy functor return_value

/-- Overload `parallel_reduce(policy, functor, return_value)` (line 262). -/
def parallel_reduce_policy {PolicyType Closure ε : Type} (prof : Profiling)
    (be : Backend PolicyType Closure ε) (policy : PolicyType)
    (functor : FunctorType) (return_value : ReturnDest) : Outcome PolicyType ε :=
  ParallelReduceAdaptor.execute prof be "No Label" policy functor return_value

/-- Overload `parallel_reduce(const size_t& policy, functor, return_value)` (line 273);
`policy_type` is `RangePolicy` on the space `functorSpace` infers from the functor. -/
def parallel_reduce_count {Space Closure ε : Type} (prof : Profiling)
    (be : Backend (RangePolicy Space) Closure ε) (functorSpace : FunctorType → Space)
    (policy : Nat) (functor : FunctorType) (return_value : ReturnDest) :
    Outcome (RangePolicy Space) ε :=
  ParallelReduceAdaptor.execute prof be "No Label"
    (RangePolicy.mk (functorSpace functor) 0 policy) functor return_value

/-- Overload `parallel_reduce(label, const size_t& policy, functor, return_value)`
(line 282). -/
def parallel_reduce_label_count {Space Closure ε : Type} (prof : Profiling)
    (be : Backend (RangePolicy Space) Closure ε) (functorSpace : FunctorType → Space)
    (label : String) (policy : Nat) (functor : FunctorType) (return_value : ReturnDest) :
    Outcome (RangePolicy Space) ε :=
  ParallelReduceAdaptor.execute prof be label
    (RangePolicy.mk (functorSpace functor) 0 policy) functor return_value

/-! ## Observations on a trace -/

/-- Number of `shared_allocation_tracking_claim_and_disable` calls in a trace. -/
def claimCount {PolicyType : Type} : List (Effect PolicyType) → Nat
  | [] => 0
  | .shared_allocation_tracking_claim_and_disable :: t => claimCount t + 1
  | _ :: t => claimCount t

/-- Number of `shared_allocation_tracking_release_and_enable` calls in a trace. -/
def releaseCount {PolicyType : Type} : List (Effect PolicyType) → Nat
  | [] => 0
  | .shared_allocation_tracking_release_and_enable :: t => releaseCount t + 1
  | _ :: t => releaseCount t

/-- The correlation ids written by the `beginParallelReduce` calls of a trace. -/
def beginIds {PolicyType : Type} : List (Effect PolicyType) → List Nat
  | [] => []
  | .beginParallelReduce _ _ kpID :: t => kpID :: beginIds t
  | _ :: t => beginIds t

/-- The correlation ids passed to the `endParallelReduce` calls of a trace. -/
def endIds {PolicyType : Type} : List (Effect PolicyType) → List Nat
  | [] => []
  | .endParallelReduce kpID :: t => kpID :: endIds t
  | _ :: t => endIds t

/-- Number of closure constructions started in a trace. -/
def constructCount {PolicyType : Type} : List (Effect PolicyType) → Nat
  | [] => 0
  | .construct_closure _ _ _ :: t => constructCount t + 1
  | _ :: t => constructCount t

/-- Number of exemptions held after a call, given the number held before it. -/
def Effect.heldAfter {PolicyType : Type} (held : Nat) : Effect PolicyType → Nat
  | .shared_allocation_tracking_claim_and_disable => held + 1
  | .shared_allocation_tracking_release_and_enable => held - 1
  | _ => held

/-- Each call of a trace paired with the number of exemptions held when the
call starts, `held` being the number held before the first call. -/
def timeline {PolicyType : Type} (held : Nat) : List (Effect PolicyType) →
    List (Effect PolicyType × Nat)
  | [] => []
  | e :: t => (e, held) :: timeline (e.heldAfter held) t

/-- Number of exemptions held after the whole trace, none being held before. -/
def heldAtExit {PolicyType : Type} (t : List (Effect PolicyType)) : Nat :=
  t.foldl Effect.heldAfter 0

/-! ## Concrete collaborators used to evaluate the dispatcher -/

/-- A listener is registered; `beginParallelReduce` writes the id 7. -/
def listenerOn : Profiling :=
  { KOKKOS_ENABLE_PROFILING := true, profileLibraryLoaded := true,
    beginParallelReduce := fun _ _ _ => 7 }

/-- No listener is registered. -/
def listenerOff : Profiling :=
  { KOKKOS_ENABLE_PROFILING := true, profileLibraryLoaded := false,
    beginParallelReduce := fun _ _ kpID => kpID }

/-- A backend whose closure is constructed and executed without error. -/
def backendOk : Backend (RangePolicy Unit) Unit String :=
  { construct := fun _ _ _ => .ok (), execute := fun _ => .ok () }

/-- A backend whose closure constructor raises an error. -/
def backendConstructFails : Backend (RangePolicy Unit) Unit String :=
  { construct := fun _ _ _ => .error "construction failed", execute := fun _ => .ok () }

/-- A backend whose closure is constructed but whose `execute()` raises an error. -/
def backendExecuteFails : Backend (RangePolicy Unit) Unit String :=
  { construct := fun _ _ _ => .ok (), execute := fun _ => .error "execution failed" }

/-! ## Theorems -/

section Reducers

/-- The conditional `dest<src?dest:src` is the minimum of the two values. -/
lemma Max.join_fst {Scalar : Type} [LinearOrder Scalar] (dest src : Scalar) :
    (Max.join dest src).1 = min dest src := by
  unfold Max.join
  by_cases h : dest < src
  · simp [h, le_of_lt h]
  · simp [h, min_eq_right (not_lt.mp h)]

/-- C7: for every `dest` and `src` of a totally ordered value type, `Max::join(dest, src)`
leaves `dest` equal to `min(dest, src)` and leaves `src` unchanged, and the volatile
overload computes the same values as the non-volatile one. -/
theorem Max_join_is_min :
    ∀ (Scalar : Type) [LinearOrder Scalar] (dest src : Scalar),
      Max.join dest src = (min dest src, src) ∧
      Max.join_volatile dest src = Max.join dest src := by
  intro Scalar _ dest src
  refine ⟨?_, rfl⟩
  have h := Max.join_fst dest src
  exact Prod.ext h rfl

/-- C6: `join` is associative for both built-in reducers: joining `b` into `a` and then
`c` into the result leaves the same value as joining `c` into `b` and then that
into `a`; for `Max` over every totally ordered value type, for `Add` over the
integers and over the integers modulo `2^w` (a `w`-bit unsigned type). -/
theorem join_associative :
    (∀ (Scalar : Type) [LinearOrder Scalar] (a b c : Scalar),
      (Max.join (Max.join a b).1 c).1 = (Max.join a (Max.join b c).1).1) ∧
    (∀ a b c : ℤ, (Add.join (Add.join a b).1 c).1 = (Add.join a (Add.join b c).1).1) ∧
    (∀ (w : ℕ) (a b c : ZMod (2 ^ w)),
      (Add.join (Add.join a b).1 c).1 = (Add.join a (Add.join b c).1).1) := by
  refine ⟨?_, ?_, ?_⟩
  · intro Scalar _ a b c
    simp only [Max.join_fst]
    exact min_assoc a b c
  · intro a b c
    simp only [Add.join]
    exact add_assoc a b c
  · intro w a b c
    simp only [Add.join]
    exact add_assoc a b c

/-- C8, evaluated on the code: with `min_value = 0`, a lower bound of `x = 5`, the value
`Max::init` sets is `0`, and `Max::join` with `dest = 0`, `src = 5` leaves `dest = 0`,
and with `dest = 5`, `src = 0` leaves `dest = 0`: in neither order is `dest` left
equal to `x`.  For `Add` the value `init` sets is an identity of `join` on both sides. -/
theorem Max_init_value_not_join_identity :
    (0 : ℤ) ≤ 5 ∧
    Max.init (Max.mk (0 : ℤ) 0) 99 = 0 ∧
    (Max.join (Max.init (Max.mk (0 : ℤ) 0) 99) 5).1 = 0 ∧
    (Max.join (Max.init (Max.mk (0 : ℤ) 0) 99) 5).1 ≠ 5 ∧
    (Max.join 5 (Max.init (Max.mk (0 : ℤ) 0) 99)).1 = 0 ∧
    (Max.join 5 (Max.init (Max.mk (0 : ℤ) 0) 99)).1 ≠ 5 ∧
    (∀ prior x : ℤ, (Add.join (Add.init prior) x).1 = x ∧ (Add.join x (Add.init prior)).1 = x) := by
  refine ⟨by decide, rfl, by decide, by decide, by decide, by decide, ?_⟩
  intro prior x
  simp [Add.join, Add.init]

/-- C9: a reduction over the empty range, computed as the reducer's `init` followed by no
`join` at all, leaves the result equal to the value `init` sets, whatever the
prior content of the result: zero for `Add`, the bound `min_value` for `Max`. -/
theorem empty_range_result_is_init_value :
    (∀ prior : ℤ,
      Add.init prior = 0 ∧
      List.foldl (fun dest src => (Add.join dest src).1) (Add.init prior) [] = 0) ∧
    (∀ (w : ℕ) (prior : ZMod (2 ^ w)),
      List.foldl (fun dest src => (Add.join dest src).1) (Add.init prior) [] = 0) ∧
    (∀ (Scalar : Type) [LinearOrder Scalar] (m prior : Scalar) (result : Addr),
      Max.init (Max.mk m result) prior = m ∧
      List.foldl (fun dest src => (Max.join dest src).1) (Max.init (Max.mk m result) prior) []
        = m) := by
  refine ⟨fun _ => ⟨rfl, rfl⟩, fun _ _ => rfl, ?_⟩
  intro Scalar _ m prior result
  exact ⟨rfl, rfl⟩

end Reducers

section Classification

/-- C5, counterexample: for trait values with `is_view` and `is_reducer_type` both true, the
conditions of the view specialization and of the reducer specialization are
both true, so two specializations match, not exactly one. -/
theorem classification_not_exclusive :
    (ReturnTraits.mk true false false true).enable_view = true ∧
    (ReturnTraits.mk true false false true).enable_reducer = true ∧
    (ReturnTraits.mk true false false true).matches = 2 ∧
    ¬ ((ReturnTraits.mk true false false true).matches = 1) := by
  decide

/-- C5, amended: for all trait values at least one of the four enabling conditions is true;
the plain-scalar condition is never true together with another one; and exactly
one condition is true if and only if at most one of `is_view`,
`is_array || is_pointer` and `is_reducer_type` is true; the trait values of each
destination shape (view, scalar, array, pointer, reducer) make exactly one true. -/
theorem classification_total_and_exclusive_iff :
    (∀ d : ReturnDest, d.traits.matches = 1) ∧
    ∀ t : ReturnTraits,
      1 ≤ t.matches ∧
      (t.enable_scalar = true →
        t.enable_view = false ∧ t.enable_array_or_pointer = false ∧
          t.enable_reducer = false) ∧
      (t.matches = 1 ↔
        ¬ (t.is_view = true ∧ (t.is_array || t.is_pointer) = true) ∧
        ¬ (t.is_view = true ∧ t.is_reducer_type = true) ∧
        ¬ ((t.is_array || t.is_pointer) = true ∧ t.is_reducer_type = true)) := by
  refine ⟨fun d => by cases d <;> rfl, ?_⟩
  rintro ⟨v, a, p, r⟩
  cases v <;> cases a <;> cases p <;> cases r <;> decide

end Classification

section Dispatcher

open Effect

/-- The three ways a dispatch can end, with the calls made in each: the
closure's constructor raises, `closure.execute()` raises, or both return. -/
lemma ParallelReduceAdaptor.execute_cases {PolicyType Closure ε : Type} (prof : Profiling)
    (be : Backend PolicyType Closure ε) (label : String) (policy : PolicyType)
    (functor : FunctorType) (return_value : ReturnDest) :
    ParallelReduceAdaptor.execute prof be label policy functor return_value =
      (match be.construct functor policy
          (ParallelReduceReturnValue.return_value return_value functor) with
      | .error e =>
        { trace := (if prof.listening then
              [beginParallelReduce label 0 (prof.beginParallelReduce label 0 0)] else []) ++
            [shared_allocation_tracking_claim_and_disable,
             construct_closure functor policy
               (ParallelReduceReturnValue.return_value return_value functor)],
          result := .error e }
      | .ok closure =>
        match be.execute closure with
        | .error e =>
          { trace := (if prof.listening then
                [beginParallelReduce label 0 (prof.beginParallelReduce label 0 0)] else []) ++
              [shared_allocation_tracking_claim_and_disable,
               construct_closure functor policy
                 (ParallelReduceReturnValue.return_value return_value functor),
               shared_allocation_tracking_release_and_enable, closure_execute],
            result := .error e }
        | .ok _ =>
          { trace := (if prof.listening then
                [beginParallelReduce label 0 (prof.beginParallelReduce label 0 0)] else []) ++
              [shared_allocation_tracking_claim_and_disable,
               construct_closure functor policy
                 (ParallelReduceReturnValue.return_value return_value functor),
               shared_allocation_tracking_release_and_enable, closure_execute] ++
              (if prof.listening then
                [endParallelReduce (prof.beginParallelReduce label 0 0)] else []),
            result := .ok () }) := by
  unfold ParallelReduceAdaptor.execute ParallelReduceFunctorType.functor
  cases hc : be.construct functor policy
      (ParallelReduceReturnValue.return_value return_value functor) with
  | error e => cases hl : prof.listening <;> simp [hc]
  | ok closure =>
    cases hx : be.execute closure with
    | error e => cases hl : prof.listening <;> simp [hc, hx]
    | ok u => cases hl : prof.listening <;> simp [hc, hx]

/-- C4: the four public overloads reduce to the one internal call
`execute(label, normalizedPolicy, functor, destination)`: for every count `C`
(zero included) the count overloads pass the range policy with begin `0` and end
`C` on the functor's execution space, which is what `ParallelReducePolicyType::policy`
builds, and so make the same call as the policy overloads given that policy; an
explicit policy is passed unchanged; each label-less overload makes the call of the
labelled overload with the label `"No Label"`. -/
theorem parallel_reduce_overloads_same_internal_call :
    (∀ (Space Closure ε : Type) (prof : Profiling) (be : Backend (RangePolicy Space) Closure ε)
        (functorSpace : FunctorType → Space) (label : String) (C : Nat)
        (f : FunctorType) (d : ReturnDest),
      parallel_reduce_count prof be functorSpace C f d =
        ParallelReduceAdaptor.execute prof be "No Label"
          (RangePolicy.mk (functorSpace f) 0 C) f d ∧
      parallel_reduce_count prof be functorSpace C f d =
        parallel_reduce_policy prof be (RangePolicy.mk (functorSpace f) 0 C) f d ∧
      parallel_reduce_label_count prof be functorSpace label C f d =
        parallel_reduce_label_policy prof be label (RangePolicy.mk (functorSpace f) 0 C) f d ∧
      parallel_reduce_count prof be functorSpace C f d =
        parallel_reduce_label_count prof be functorSpace "No Label" C f d ∧
      ParallelReducePolicyType.policy_integral functorSpace f C =
        RangePolicy.mk (functorSpace f) 0 C) ∧
    (∀ (PolicyType Closure ε : Type) (prof : Profiling) (be : Backend PolicyType Closure ε)
        (label : String) (p : PolicyType) (f : FunctorType) (d : ReturnDest),
      parallel_reduce_label_policy prof be label p f d =
        ParallelReduceAdaptor.execute prof be label p f d ∧
      parallel_reduce_policy prof be p f d =
        parallel_reduce_label_policy prof be "No Label" p f d ∧
      ParallelReducePolicyType.policy_execution_policy p = p) := by
  refine ⟨?_, ?_⟩
  · intro Space Closure ε prof be functorSpace label C f d
    exact ⟨rfl, rfl, rfl, rfl, rfl⟩
  · intro PolicyType Closure ε prof be label p f d
    exact ⟨rfl, rfl, rfl⟩

/-- C1, counterexample: when the closure's constructor raises an error, the dispatch has
called `shared_allocation_tracking_claim_and_disable` once and
`shared_allocation_tracking_release_and_enable` not at all. -/
theorem construct_failure_release_not_called :
    (ParallelReduceAdaptor.execute listenerOff backendConstructFails "k"
        (RangePolicy.mk () 0 4) (FunctorType.mk 1 1) (ReturnDest.scalar 10)).result
      = .error "construction failed" ∧
    claimCount (ParallelReduceAdaptor.execute listenerOff backendConstructFails "k"
        (RangePolicy.mk () 0 4) (FunctorType.mk 1 1) (ReturnDest.scalar 10)).trace = 1 ∧
    releaseCount (ParallelReduceAdaptor.execute listenerOff backendConstructFails "k"
        (RangePolicy.mk () 0 4) (FunctorType.mk 1 1) (ReturnDest.scalar 10)).trace = 0 ∧
    ¬ (releaseCount (ParallelReduceAdaptor.execute listenerOff backendConstructFails "k"
        (RangePolicy.mk () 0 4) (FunctorType.mk 1 1) (ReturnDest.scalar 10)).trace =
      claimCount (ParallelReduceAdaptor.execute listenerOff backendConstructFails "k"
        (RangePolicy.mk () 0 4) (FunctorType.mk 1 1) (ReturnDest.scalar 10)).trace) := by
  refine ⟨rfl, rfl, rfl, ?_⟩
  decide

/-- C1, amended: every dispatch claims the exemption exactly once; it releases it exactly
once when the closure's constructor returns (whether `closure.execute()` then
returns or raises), and not at all when the constructor raises; on a normal
return both counts are 1. -/
theorem exemption_claim_and_release_counts :
    ∀ (PolicyType Closure ε : Type) (prof : Profiling) (be : Backend PolicyType Closure ε)
      (label : String) (policy : PolicyType) (functor : FunctorType) (dest : ReturnDest),
      claimCount (ParallelReduceAdaptor.execute prof be label policy functor dest).trace = 1 ∧
      releaseCount (ParallelReduceAdaptor.execute prof be label policy functor dest).trace =
        (match be.construct functor policy
            (ParallelReduceReturnValue.return_value dest functor) with
         | .ok _ => 1
         | .error _ => 0) ∧
      ((ParallelReduceAdaptor.execute prof be label policy functor dest).result = .ok () →
        releaseCount (ParallelReduceAdaptor.execute prof be label policy functor dest).trace
          = 1) := by
  intro PolicyType Closure ε prof be label policy functor dest
  rw [ParallelReduceAdaptor.execute_cases]
  cases hc : be.construct functor policy
      (ParallelReduceReturnValue.return_value dest functor) with
  | error e => cases hl : prof.listening <;> simp [hc, claimCount, releaseCount]
  | ok closure =>
    cases hx : be.execute closure with
    | error e => cases hl : prof.listening <;> simp [hc, hx, claimCount, releaseCount]
    | ok u => cases hl : prof.listening <;> simp [hc, hx, claimCount, releaseCount]

/-- C2, counterexample: with a listener registered, when `closure.execute()` raises an
error the id `7` written by `beginParallelReduce` is passed to no
`endParallelReduce` call; when the closure's constructor raises, there is no
`endParallelReduce` call either and one exemption is held at exit. -/
theorem backend_failure_begin_without_end :
    (ParallelReduceAdaptor.execute listenerOn backendExecuteFails "k"
        (RangePolicy.mk () 0 4) (FunctorType.mk 1 1) (ReturnDest.scalar 10)).result
      = .error "execution failed" ∧
    beginIds (ParallelReduceAdaptor.execute listenerOn backendExecuteFails "k"
        (RangePolicy.mk () 0 4) (FunctorType.mk 1 1) (ReturnDest.scalar 10)).trace = [7] ∧
    endIds (ParallelReduceAdaptor.execute listenerOn backendExecuteFails "k"
        (RangePolicy.mk () 0 4) (FunctorType.mk 1 1) (ReturnDest.scalar 10)).trace = [] ∧
    beginIds (ParallelReduceAdaptor.execute listenerOn backendConstructFails "k"
        (RangePolicy.mk () 0 4) (FunctorType.mk 1 1) (ReturnDest.scalar 10)).trace = [7] ∧
    endIds (ParallelReduceAdaptor.execute listenerOn backendConstructFails "k"
        (RangePolicy.mk () 0 4) (FunctorType.mk 1 1) (ReturnDest.scalar 10)).trace = [] ∧
    heldAtExit (ParallelReduceAdaptor.execute listenerOn backendConstructFails "k"
        (RangePolicy.mk () 0 4) (FunctorType.mk 1 1) (ReturnDest.scalar 10)).trace = 1 := by
  exact ⟨rfl, rfl, rfl, rfl, rfl, rfl⟩

/-- C2, amended: with a listener registered, every dispatch makes exactly one
`beginParallelReduce` call; when the dispatch returns normally the id that call
wrote is passed to exactly one `endParallelReduce` call and no exemption is held;
when the closure's constructor raises `e`, the dispatch ends with `e`, makes no
`endParallelReduce` call and holds one exemption; when `closure.execute()` raises
`e`, the dispatch ends with `e`, makes no `endParallelReduce` call and holds no
exemption. -/
theorem listener_begin_end_pairing (PolicyType Closure ε : Type) (prof : Profiling)
    (be : Backend PolicyType Closure ε) (label : String) (policy : PolicyType)
    (functor : FunctorType) (dest : ReturnDest) (hl : prof.listening = true) :
    beginIds (ParallelReduceAdaptor.execute prof be label policy functor dest).trace =
      [prof.beginParallelReduce label 0 0] ∧
    ((ParallelReduceAdaptor.execute prof be label policy functor dest).result = .ok () →
      endIds (ParallelReduceAdaptor.execute prof be label policy functor dest).trace =
        [prof.beginParallelReduce label 0 0] ∧
      heldAtExit (ParallelReduceAdaptor.execute prof be label policy functor dest).trace = 0) ∧
    (∀ e, be.construct functor policy (ParallelReduceReturnValue.return_value dest functor)
        = .error e →
      (ParallelReduceAdaptor.execute prof be label policy functor dest).result = .error e ∧
      endIds (ParallelReduceAdaptor.execute prof be label policy functor dest).trace = [] ∧
      heldAtExit (ParallelReduceAdaptor.execute prof be label policy functor dest).trace = 1) ∧
    (∀ closure e, be.construct functor policy
        (ParallelReduceReturnValue.return_value dest functor) = .ok closure →
      be.execute closure = .error e →
      (ParallelReduceAdaptor.execute prof be label policy functor dest).result = .error e ∧
      endIds (ParallelReduceAdaptor.execute prof be label policy functor dest).trace = [] ∧
      heldAtExit (ParallelReduceAdaptor.execute prof be label policy functor dest).trace = 0) := by
  rw [ParallelReduceAdaptor.execute_cases]
  cases hc : be.construct functor policy
      (ParallelReduceReturnValue.return_value dest functor) with
  | error e => simp [hl, beginIds, endIds, heldAtExit, Effect.heldAfter]
  | ok closure =>
    cases hx : be.execute closure with
    | error e =>
      simp only [hl, hx]
      refine ⟨by simp [beginIds], by simp, by simp, ?_⟩
      intro c1 e1 h1 h2
      cases h1
      rw [hx] at h2
      cases h2
      simp [endIds, heldAtExit, Effect.heldAfter]
    | ok u =>
      simp only [hl, hx]
      refine ⟨by simp [beginIds], by simp [endIds, heldAtExit, Effect.heldAfter], by simp, ?_⟩
      intro c1 e1 h1 h2
      cases h1
      rw [hx] at h2
      cases h2

/-- Witness of C2, amended: a registered listener writing the id 7 and a backend that
succeeds; the id 7 goes to exactly one `endParallelReduce` call. -/
theorem listener_begin_end_pairing_witness :
    listenerOn.listening = true ∧
    beginIds (ParallelReduceAdaptor.execute listenerOn backendOk "k"
        (RangePolicy.mk () 0 4) (FunctorType.mk 1 1) (ReturnDest.scalar 10)).trace = [7] ∧
    ((ParallelReduceAdaptor.execute listenerOn backendOk "k"
        (RangePolicy.mk () 0 4) (FunctorType.mk 1 1) (ReturnDest.scalar 10)).result = .ok () →
      endIds (ParallelReduceAdaptor.execute listenerOn backendOk "k"
        (RangePolicy.mk () 0 4) (FunctorType.mk 1 1) (ReturnDest.scalar 10)).trace = [7] ∧
      heldAtExit (ParallelReduceAdaptor.execute listenerOn backendOk "k"
        (RangePolicy.mk () 0 4) (FunctorType.mk 1 1) (ReturnDest.scalar 10)).trace = 0) :=
  ⟨rfl,
   (listener_begin_end_pairing (RangePolicy Unit) Unit String listenerOn backendOk "k"
      (RangePolicy.mk () 0 4) (FunctorType.mk 1 1) (ReturnDest.scalar 10) rfl).1,
   (listener_begin_end_pairing (RangePolicy Unit) Unit String listenerOn backendOk "k"
      (RangePolicy.mk () 0 4) (FunctorType.mk 1 1) (ReturnDest.scalar 10) rfl).2.1⟩

/-- C3, counterexample: an array destination of 3 elements with a functor whose
`value_count` is 2, a listener registered: the dispatch returns normally, having
emitted the begin and the end event, claimed the exemption and constructed the
closure on a view of 2 elements. -/
theorem array_count_mismatch_dispatch_proceeds :
    (3 : Nat) ≠ (FunctorType.mk 1 2).value_count ∧
    (ParallelReduceAdaptor.execute listenerOn backendOk "k"
        (RangePolicy.mk () 0 4) (FunctorType.mk 1 2) (ReturnDest.array 10 3)).result = .ok () ∧
    (ParallelReduceAdaptor.execute listenerOn backendOk "k"
        (RangePolicy.mk () 0 4) (FunctorType.mk 1 2) (ReturnDest.array 10 3)).trace =
      [beginParallelReduce "k" 0 7,
       shared_allocation_tracking_claim_and_disable,
       construct_closure (FunctorType.mk 1 2) (RangePolicy.mk () 0 4) (View.mk 10 2),
       shared_allocation_tracking_release_and_enable,
       closure_execute,
       endParallelReduce 7] := by
  exact ⟨by decide, rfl, rfl⟩

/-- C3, amended: for every dispatch whose destination is array- or pointer-shaped, whatever
its element count, the view handed to the backend has `functor.value_count`
elements; the dispatch emits the begin event (when a listener is registered),
claims the exemption once and starts constructing the closure on that view once;
it ends as the backend's constructor and `execute()` end. -/
theorem array_destination_count_not_checked (PolicyType Closure ε : Type) (prof : Profiling)
    (be : Backend PolicyType Closure ε) (label : String) (policy : PolicyType)
    (functor : FunctorType) (dest : ReturnDest)
    (hd : dest.traits.enable_array_or_pointer = true) :
    (ParallelReduceReturnValue.return_value dest functor).count = functor.value_count ∧
    ((if prof.listening then
        [beginParallelReduce label 0 (prof.beginParallelReduce label 0 0)] else []) ++
      [shared_allocation_tracking_claim_and_disable,
       construct_closure functor policy (ParallelReduceReturnValue.return_value dest functor)])
      <+: (ParallelReduceAdaptor.execute prof be label policy functor dest).trace ∧
    claimCount (ParallelReduceAdaptor.execute prof be label policy functor dest).trace = 1 ∧
    constructCount (ParallelReduceAdaptor.execute prof be label policy functor dest).trace = 1 ∧
    (ParallelReduceAdaptor.execute prof be label policy functor dest).result =
      (be.construct functor policy (ParallelReduceReturnValue.return_value dest functor)).bind
        be.execute := by
  refine ⟨?_, ?_⟩
  · cases dest <;> simp_all [ReturnDest.traits, ReturnTraits.enable_array_or_pointer,
      ParallelReduceReturnValue.return_value]
  · rw [ParallelReduceAdaptor.execute_cases]
    cases hc : be.construct functor policy
        (ParallelReduceReturnValue.return_value dest functor) with
    | error e =>
      cases hl : prof.listening <;>
        simp [hc, claimCount, constructCount, Except.bind]
    | ok closure =>
      cases hx : be.execute closure with
      | error e =>
        cases hl : prof.listening <;>
          simp [hc, hx, claimCount, constructCount, Except.bind, List.prefix_iff_eq_append]
      | ok u =>
        cases hl : prof.listening <;>
          simp [hc, hx, claimCount, constructCount, Except.bind, List.prefix_iff_eq_append]

/-- Witness of C3, amended: an array of 3 elements and a functor with `value_count = 2`. -/
theorem array_destination_count_not_checked_witness :
    (ReturnDest.array 10 3).traits.enable_array_or_pointer = true ∧
    (ParallelReduceReturnValue.return_value (ReturnDest.array 10 3) (FunctorType.mk 1 2)).count
      = 2 ∧
    claimCount (ParallelReduceAdaptor.execute listenerOff backendOk "k"
        (RangePolicy.mk () 0 4) (FunctorType.mk 1 2) (ReturnDest.array 10 3)).trace = 1 :=
  ⟨rfl,
   (array_destination_count_not_checked (RangePolicy Unit) Unit String listenerOff backendOk "k"
      (RangePolicy.mk () 0 4) (FunctorType.mk 1 2) (ReturnDest.array 10 3) rfl).1,
   (array_destination_count_not_checked (RangePolicy Unit) Unit String listenerOff backendOk "k"
      (RangePolicy.mk () 0 4) (FunctorType.mk 1 2) (ReturnDest.array 10 3) rfl).2.2.1⟩

/-- C10: for every dispatch that completes without error, the calls made are exactly: the
begin event (only if a listener is registered), claim exemption, construct closure,
release exemption, execute closure, the end event with the id from begin (only if
a listener is registered).  An exemption is held when the constructor and the
release call start and at no other call, so not when the closure is executed;
with no listener registered there is no begin and no end call. -/
theorem success_effect_sequence (PolicyType Closure ε : Type) (prof : Profiling)
    (be : Backend PolicyType Closure ε) (label : String) (policy : PolicyType)
    (functor : FunctorType) (dest : ReturnDest)
    (hok : (ParallelReduceAdaptor.execute prof be label policy functor dest).result = .ok ()) :
    (ParallelReduceAdaptor.execute prof be label policy functor dest).trace =
      (if prof.listening then
        [beginParallelReduce label 0 (prof.beginParallelReduce label 0 0)] else []) ++
      [shared_allocation_tracking_claim_and_disable,
       construct_closure functor policy (ParallelReduceReturnValue.return_value dest functor),
       shared_allocation_tracking_release_and_enable,
       closure_execute] ++
      (if prof.listening then [endParallelReduce (prof.beginParallelReduce label 0 0)] else []) ∧
    timeline 0 (ParallelReduceAdaptor.execute prof be label policy functor dest).trace =
      (if prof.listening then
        [(beginParallelReduce label 0 (prof.beginParallelReduce label 0 0), 0)] else []) ++
      [(shared_allocation_tracking_claim_and_disable, 0),
       (construct_closure functor policy (ParallelReduceReturnValue.return_value dest functor), 1),
       (shared_allocation_tracking_release_and_enable, 1),
       (closure_execute, 0)] ++
      (if prof.listening then
        [(endParallelReduce (prof.beginParallelReduce label 0 0), 0)] else []) ∧
    heldAtExit (ParallelReduceAdaptor.execute prof be label policy functor dest).trace = 0 ∧
    (prof.listening = false →
      (ParallelReduceAdaptor.execute prof be label policy functor dest).trace =
        [shared_allocation_tracking_claim_and_disable,
         construct_closure functor policy (ParallelReduceReturnValue.return_value dest functor),
         shared_allocation_tracking_release_and_enable,
         closure_execute]) := by
  rw [ParallelReduceAdaptor.execute_cases] at hok ⊢
  cases hc : be.construct functor policy
      (ParallelReduceReturnValue.return_value dest functor) with
  | error e => simp [hc] at hok
  | ok closure =>
    cases hx : be.execute closure with
    | error e => simp [hc, hx] at hok
    | ok u =>
      cases hl : prof.listening <;>
        simp [hc, hx, timeline, heldAtExit, Effect.heldAfter]

/-- Witness of C10: a registered listener writing the id 7 and a backend that succeeds. -/
theorem success_effect_sequence_witness :
    (ParallelReduceAdaptor.execute listenerOn backendOk "k"
        (RangePolicy.mk () 0 4) (FunctorType.mk 1 1) (ReturnDest.scalar 10)).result = .ok () ∧
    (ParallelReduceAdaptor.execute listenerOn backendOk "k"
        (RangePolicy.mk () 0 4) (FunctorType.mk 1 1) (ReturnDest.scalar 10)).trace =
      [beginParallelReduce "k" 0 7,
       shared_allocation_tracking_claim_and_disable,
       construct_closure (FunctorType.mk 1 1) (RangePolicy.mk () 0 4) (View.mk 10 1),
       shared_allocation_tracking_release_and_enable,
       closure_execute,
       endParallelReduce 7] :=
  ⟨rfl,
   (success_effect_sequence (RangePolicy Unit) Unit String listenerOn backendOk "k"
      (RangePolicy.mk () 0 4) (FunctorType.mk 1 1) (ReturnDest.scalar 10) rfl).1⟩

end Dispatcher

end Kokkos
